import Mathlib

/-!
Shallow embedding of the realtime streaming transcription WebSocket handler
`realtime_transcription` of `src/openai_server.py` (lines 156-248).

The handler accepts a connection, checks that the global model is loaded
(emitting an error and returning immediately if not), acquires a streaming
transcriber context, emits a `ready` event, and then loops:

  - receive a text frame; `json.loads` it (a parse failure raises, caught by
    the chunk-level handler that emits an `error` event and continues);
  - `data.get("type") == "audio"`: base64-decode, build an array, call
    `add_audio`; any failure in that path is caught by the chunk-level
    handler (error event, loop continues); on success, if
    `transcriber_context.result` and its `.text` are truthy, strip the text
    and, when the stripped text is non-empty, emit a non-final
    `transcription` event;
  - `data.get("type") == "end"`: if the current result text is truthy, emit
    a final `transcription` event with the stripped text; then emit `done`
    and break;
  - `data.get` on a non-dict JSON value raises AttributeError, which the
    chunk-level handler turns into an `error` event, continuing the loop;
  - a JSON object of any other (or missing) type matches no branch: nothing
    happens and the loop continues;
  - a `WebSocketDisconnect` breaks the loop with no further events;
  - finally: the transcriber context is released (once) and the socket closed.

We embed one session as a pure function from the sequence of receive
outcomes (each audio message paired with the engine-side outcome of
processing it) to the list of emitted events, the number of successfully
ingested chunks, whether the streaming context was acquired, the number of
context release calls, and whether the handler function returned.
Outbound sends are modelled as always delivered.
-/

namespace MlxStt

/-- Engine-side outcome of handling one `{"type": "audio"}` message:
either some step of the audio path (missing `data` key, base64 decode,
buffer conversion, `add_audio`) raises with message `errMsg`, or the chunk
is ingested and afterwards `transcriber_context.result` has the given text
(`none` models a falsy `result` object). -/
inductive ChunkOutcome where
  | fail (errMsg : String)
  | ok (result : Option String)
deriving Repr, DecidableEq

/-- One outcome of `await websocket.receive_text()` followed by parsing, as
the handler distinguishes them. -/
inductive Inbound where
  /-- a JSON object with `"type": "audio"`; carries the engine outcome. -/
  | audio (outcome : ChunkOutcome)
  /-- a JSON object with `"type": "end"`. -/
  | endMsg
  /-- a JSON object whose `type` is neither `"audio"` nor `"end"`
  (a missing `type` key included): matches no branch. -/
  | otherObj
  /-- a frame that parses as non-object JSON (array, string, number, null):
  `data.get("type")` raises AttributeError with message `errMsg`. -/
  | nonObject (errMsg : String)
  /-- a frame that is not valid JSON: `json.loads` raises with `errMsg`. -/
  | badJson (errMsg : String)
  /-- `WebSocketDisconnect` raised while receiving. -/
  | disconnect
deriving Repr, DecidableEq

/-- Outbound JSON events, one constructor per `send_json` payload shape in
the handler, with one field per JSON key beyond `type`. -/
inductive Event where
  | ready (sample_rate : Nat) (message : String)
  | transcription (text : String) (final : Bool)
  | error (message : String)
  | done
deriving Repr, DecidableEq, BEq

/-- The JSON keys of each outbound event object, exactly as the dict
literals in the source spell them. -/
def Event.keys : Event → List String
  | .ready _ _ => ["type", "sample_rate", "message"]
  | .transcription _ _ => ["type", "text", "final"]
  | .error _ => ["type", "message"]
  | .done => ["type"]

/-- The fixed `message` field of the `ready` event (line 187). -/
def readyMessage : String :=
  "Ready to receive audio. Send audio chunks as base64-encoded WAV data."

/-- Embedding of `str.strip()`: remove leading and trailing whitespace. -/
def pyStrip (s : String) : String :=
  ⟨((s.data.dropWhile Char.isWhitespace).reverse.dropWhile
      Char.isWhitespace).reverse⟩

/-- Events emitted right after a successful `add_audio` (lines 211-217):
if `result` is truthy and `result.text` is truthy (non-empty), strip it and
emit a non-final transcription event when the stripped text is non-empty. -/
def pollEvents (res : Option String) : List Event :=
  match res with
  | none => []
  | some t =>
    if t = "" then []
    else if pyStrip t = "" then []
    else [Event.transcription (pyStrip t) false]

/-- Events emitted by the `end` branch (lines 219-227): a final
transcription event of the stripped current text when `result` and
`result.text` are truthy (note: emitted even when stripping leaves the
empty string), then `done`. -/
def endEvents (res : Option String) : List Event :=
  (match res with
   | none => []
   | some t => if t = "" then [] else [Event.transcription (pyStrip t) true])
  ++ [Event.done]

/-- The `while True` receive loop (lines 191-234), over the pending receive
outcomes, threading the current `transcriber_context.result` text.  Returns
the emitted events, the number of successfully ingested chunks, and whether
the loop exited via `break` (`end` handled or disconnect observed); inputs
after a `break` are never received. -/
def sessionLoop : Option String → List Inbound → List Event × Nat × Bool
  | _, [] => ([], 0, false)
  | r, Inbound.audio (ChunkOutcome.fail m) :: rest =>
    (Event.error m :: (sessionLoop r rest).1, (sessionLoop r rest).2)
  | _, Inbound.audio (ChunkOutcome.ok res) :: rest =>
    (pollEvents res ++ (sessionLoop res rest).1,
      (sessionLoop res rest).2.1 + 1, (sessionLoop res rest).2.2)
  | r, Inbound.endMsg :: _ => (endEvents r, 0, true)
  | r, Inbound.otherObj :: rest => sessionLoop r rest
  | r, Inbound.nonObject m :: rest =>
    (Event.error m :: (sessionLoop r rest).1, (sessionLoop r rest).2)
  | r, Inbound.badJson m :: rest =>
    (Event.error m :: (sessionLoop r rest).1, (sessionLoop r rest).2)
  | _, Inbound.disconnect :: _ => ([], 0, true)

/-- Observable outcome of one whole session. -/
structure RunResult where
  /-- all events sent to the client, in order. -/
  events : List Event
  /-- number of chunks that reached a successful `add_audio`. -/
  ingests : Nat
  /-- whether the streaming transcriber context was acquired. -/
  acquired : Bool
  /-- number of `transcriber.__exit__` calls (engine resource releases). -/
  exitCalls : Nat
  /-- whether the handler returned (loop broke and teardown ran). -/
  terminated : Bool
deriving Repr, DecidableEq

/-- The whole handler (lines 156-248): the model-not-loaded check, context
acquisition, the `ready` event, the receive loop, and the `finally` block
that releases the context exactly when it was acquired.  `modelLoaded`
embeds `stt_model is not None`; `sampleRate` embeds
`stt_model.preprocessor_config.sample_rate`. -/
def runSession (modelLoaded : Bool) (sampleRate : Nat)
    (inputs : List Inbound) : RunResult :=
  match modelLoaded with
  | false =>
    { events := [Event.error "Model not loaded"]
      ingests := 0
      acquired := false
      exitCalls := 0
      terminated := true }
  | true =>
    { events := Event.ready sampleRate readyMessage ::
        (sessionLoop none inputs).1
      ingests := (sessionLoop none inputs).2.1
      acquired := true
      exitCalls := if (sessionLoop none inputs).2.2 then 1 else 0
      terminated := (sessionLoop none inputs).2.2 }

/-- The text a partial transcription event would carry after a chunk whose
engine result is `res`, when one is emitted at all: the stripped result
text, provided the raw and the stripped text are both non-empty. -/
def pollText (res : Option String) : Option String :=
  match res with
  | none => none
  | some t =>
    if t = "" then none
    else if pyStrip t = "" then none
    else some (pyStrip t)

/-- Recogniser for final transcription events. -/
def finalTrue : Event → Bool
  | Event.transcription _ true => true
  | _ => false

/-- Checks that every final transcription event in the list is followed by
exactly the `done` event and nothing else (hence it is the last
transcription-type event of the session). -/
def finalIsLast : List Event → Bool
  | [] => true
  | e :: rest =>
    if finalTrue e then decide (rest = [Event.done]) else finalIsLast rest

lemma pollEvents_eq_pollText (res : Option String) :
    pollEvents res
      = ((pollText res).map fun t => Event.transcription t false).toList := by
  cases res with
  | none => rfl
  | some t =>
    by_cases h1 : t = ""
    · simp [pollEvents, pollText, h1]
    · by_cases h2 : pyStrip t = ""
      · simp [pollEvents, pollText, h1, h2]
      · simp [pollEvents, pollText, h1, h2]

lemma finalTrue_of_mem_pollEvents (res : Option String) :
    ∀ e ∈ pollEvents res, finalTrue e = false := by
  intro e he
  rw [pollEvents_eq_pollText] at he
  cases h : pollText res with
  | none => simp [h] at he
  | some x =>
    simp [h] at he
    simp [he, finalTrue]

lemma finalIsLast_append (l es : List Event)
    (h : ∀ e ∈ l, finalTrue e = false) :
    finalIsLast (l ++ es) = finalIsLast es := by
  induction l with
  | nil => rfl
  | cons a l ih =>
    have ha : finalTrue a = false := h a (List.mem_cons_self a l)
    simp only [List.cons_append, finalIsLast, ha, if_neg Bool.false_ne_true]
    exact ih fun e he => h e (List.mem_cons_of_mem a he)

lemma countP_pollEvents (res : Option String) :
    (pollEvents res).countP finalTrue = 0 := by
  rw [List.countP_eq_zero]
  intro e he
  simp [finalTrue_of_mem_pollEvents res e he]

lemma sessionLoop_final_invariant (ins : List Inbound) :
    ∀ r : Option String,
    (sessionLoop r ins).1.countP finalTrue ≤ 1 ∧
    finalIsLast (sessionLoop r ins).1 = true := by
  induction ins with
  | nil => exact fun r => ⟨by simp [sessionLoop], rfl⟩
  | cons a rest ih =>
    intro r
    cases a with
    | audio oc =>
      cases oc with
      | fail m =>
        refine ⟨?_, ?_⟩
        · simpa [sessionLoop, List.countP_cons, finalTrue] using (ih r).1
        · simpa [sessionLoop, finalIsLast, finalTrue] using (ih r).2
      | ok res =>
        refine ⟨?_, ?_⟩
        · simpa [sessionLoop, List.countP_append, countP_pollEvents res]
            using (ih res).1
        · have h : (sessionLoop r (Inbound.audio (ChunkOutcome.ok res) :: rest)).1
              = pollEvents res ++ (sessionLoop res rest).1 := rfl
          rw [h, finalIsLast_append _ _ (finalTrue_of_mem_pollEvents res)]
          exact (ih res).2
    | endMsg =>
      refine ⟨?_, ?_⟩ <;>
      · cases r with
        | none => simp [sessionLoop, endEvents, finalIsLast, finalTrue]
        | some t =>
          by_cases h1 : t = "" <;>
            simp [sessionLoop, endEvents, h1, finalIsLast, finalTrue,
              List.countP_cons]
    | otherObj => exact ih r
    | nonObject m =>
      refine ⟨?_, ?_⟩
      · simpa [sessionLoop, List.countP_cons, finalTrue] using (ih r).1
      · simpa [sessionLoop, finalIsLast, finalTrue] using (ih r).2
    | badJson m =>
      refine ⟨?_, ?_⟩
      · simpa [sessionLoop, List.countP_cons, finalTrue] using (ih r).1
      · simpa [sessionLoop, finalIsLast, finalTrue] using (ih r).2
    | disconnect => exact ⟨by simp [sessionLoop], rfl⟩

lemma sessionLoop_terminated_of_mem (ins : List Inbound) :
    ∀ r : Option String,
    Inbound.endMsg ∈ ins ∨ Inbound.disconnect ∈ ins →
    (sessionLoop r ins).2.2 = true := by
  induction ins with
  | nil => intro r h; simp at h
  | cons a rest ih =>
    intro r h
    cases a with
    | audio oc =>
      have hm : Inbound.endMsg ∈ rest ∨ Inbound.disconnect ∈ rest := by
        rcases h with h | h <;> simp_all
      cases oc with
      | fail m => simpa [sessionLoop] using ih r hm
      | ok res => simpa [sessionLoop] using ih res hm
    | endMsg => rfl
    | otherObj =>
      have hm : Inbound.endMsg ∈ rest ∨ Inbound.disconnect ∈ rest := by
        rcases h with h | h <;> simp_all
      exact ih r hm
    | nonObject m =>
      have hm : Inbound.endMsg ∈ rest ∨ Inbound.disconnect ∈ rest := by
        rcases h with h | h <;> simp_all
      simpa [sessionLoop] using ih r hm
    | badJson m =>
      have hm : Inbound.endMsg ∈ rest ∨ Inbound.disconnect ∈ rest := by
        rcases h with h | h <;> simp_all
      simpa [sessionLoop] using ih r hm
    | disconnect => rfl

lemma sessionLoop_disconnect_suffix (pre : List Inbound) :
    ∀ (r : Option String) (rest rest2 : List Inbound),
    sessionLoop r (pre ++ Inbound.disconnect :: rest)
      = sessionLoop r (pre ++ Inbound.disconnect :: rest2) := by
  induction pre with
  | nil => intro r rest rest2; rfl
  | cons a pre ih =>
    intro r rest rest2
    cases a with
    | audio oc =>
      cases oc with
      | fail m =>
        simp only [List.cons_append, sessionLoop, List.append_eq]
        rw [ih r rest rest2]
      | ok res =>
        simp only [List.cons_append, sessionLoop, List.append_eq]
        rw [ih res rest rest2]
    | endMsg => rfl
    | otherObj =>
      simp only [List.cons_append, sessionLoop, List.append_eq]
      exact ih r rest rest2
    | nonObject m =>
      simp only [List.cons_append, sessionLoop, List.append_eq]
      rw [ih r rest rest2]
    | badJson m =>
      simp only [List.cons_append, sessionLoop, List.append_eq]
      rw [ih r rest rest2]
    | disconnect => rfl

lemma sessionLoop_audio_run (texts : List (Option String)) :
    ∀ r : Option String,
    sessionLoop r (texts.map fun res => Inbound.audio (ChunkOutcome.ok res))
      = ((texts.filterMap pollText).map fun t => Event.transcription t false,
          texts.length, false) := by
  induction texts with
  | nil => intro r; rfl
  | cons t ts ih =>
    intro r
    simp only [List.map_cons, sessionLoop, ih t, List.filterMap_cons]
    cases h : pollText t with
    | none => simp [pollEvents_eq_pollText, h]
    | some x => simp [pollEvents_eq_pollText, h]

/-- C1, counterexample: opening a session and sending `end` with no prior
audio does NOT yield a final transcription event — the handler emits only
`ready` followed by `done`, because the `end` branch emits the final event
only when the current result text is truthy.  In particular the claimed
event `{type: transcription, text: "", final: true}` is never sent. -/
theorem c1_end_counterexample :
    (runSession true 16000 [Inbound.endMsg]).events
      = [Event.ready 16000 readyMessage, Event.done] ∧
    Event.transcription "" true ∉ (runSession true 16000 [Inbound.endMsg]).events :=
  ⟨rfl, by simp [runSession, sessionLoop, endEvents]⟩

/-- C1, amended: on an inbound `end` message the handler emits `done` and
terminates, but emits the preceding `final: true` transcription event only
when the engine's current result text is non-empty; with no prior audio,
`end` yields only `ready` followed by `done`, and after a chunk whose
result text `t` is non-empty, `end` yields the stripped text as the final
event and then `done`. -/
theorem c1_end_amended (sr : Nat) (rest : List Inbound) :
    (runSession true sr (Inbound.endMsg :: rest)).events
      = [Event.ready sr readyMessage, Event.done] ∧
    ∀ t : String, t ≠ "" →
      (runSession true sr
          (Inbound.audio (ChunkOutcome.ok (some t))
            :: Inbound.endMsg :: rest)).events
        = Event.ready sr readyMessage ::
            (pollEvents (some t)
              ++ [Event.transcription (pyStrip t) true, Event.done]) := by
  refine ⟨rfl, ?_⟩
  intro t ht
  have h : endEvents (some t)
      = [Event.transcription (pyStrip t) true, Event.done] := by
    simp [endEvents, ht]
  simp [runSession, sessionLoop, h]

/-- Witness for the amended C1 at the concrete text `"hi"`. -/
theorem c1_end_amended_witness :
    (runSession true 16000
        [Inbound.audio (ChunkOutcome.ok (some "hi")), Inbound.endMsg]).events
      = Event.ready 16000 readyMessage ::
          (pollEvents (some "hi")
            ++ [Event.transcription (pyStrip "hi") true, Event.done]) :=
  (c1_end_amended 16000 []).2 "hi" (by decide)

/-- C2, counterexample: the handler keeps no `lastEmittedText` and performs
no duplicate suppression — two consecutive chunks both leaving the engine
result text `"hello"` produce two consecutive partial transcription events
with identical text. -/
theorem c2_duplicate_counterexample :
    (runSession true 16000
        [Inbound.audio (ChunkOutcome.ok (some "hello")),
         Inbound.audio (ChunkOutcome.ok (some "hello"))]).events
      = [Event.ready 16000 readyMessage,
         Event.transcription "hello" false,
         Event.transcription "hello" false] := by decide

/-- C2, amended: after each successfully ingested chunk a partial
(`final: false`) transcription event is emitted exactly when the engine's
current result text, stripped of surrounding whitespace, is non-empty, and
it carries that stripped text; emptiness is the only suppression — equality
with the previously emitted text is not checked, so consecutive partial
events may carry identical text.  For a run of successfully ingested
chunks the emitted events are `ready` followed by exactly the non-blank
stripped result texts, in order. -/
theorem c2_poll_amended (sr : Nat) (texts : List (Option String)) :
    (runSession true sr
        (texts.map fun res => Inbound.audio (ChunkOutcome.ok res))).events
      = Event.ready sr readyMessage ::
          ((texts.filterMap pollText).map
            fun t => Event.transcription t false) ∧
    (runSession true sr
        (texts.map fun res => Inbound.audio (ChunkOutcome.ok res))).ingests
      = texts.length := by
  have h := sessionLoop_audio_run texts none
  constructor
  · simp [runSession, h]
  · simp [runSession, h]

/-- C3: in every session that acquired the streaming context (the model was
loaded, so the handler entered the `try` block past `__enter__`), the
`finally` block releases the transcriber at most once, and exactly once on
every run in which the handler terminates; the receive loop terminates
whenever the inbound sequence contains an `end` message or a disconnect —
the two exit paths — and chunk-level errors never exit the loop, so every
exit path releases the engine resource exactly once. -/
theorem c3_release_exactly_once (sr : Nat) (ins : List Inbound) :
    (runSession true sr ins).exitCalls ≤ 1 ∧
    ((runSession true sr ins).terminated = true →
      (runSession true sr ins).exitCalls = 1) ∧
    (Inbound.endMsg ∈ ins ∨ Inbound.disconnect ∈ ins →
      (runSession true sr ins).terminated = true) := by
  refine ⟨?_, ?_, ?_⟩
  · simp only [runSession]
    split <;> simp
  · intro h
    simp only [runSession] at h ⊢
    simp [h]
  · intro h
    simpa [runSession] using sessionLoop_terminated_of_mem ins none h

/-- Witness for C3: the session that receives just `end` terminates and
releases the engine resource exactly once. -/
theorem c3_release_exactly_once_witness :
    (runSession true 16000 [Inbound.endMsg]).exitCalls = 1 :=
  (c3_release_exactly_once 16000 [Inbound.endMsg]).2.1 rfl

/-- C4: over every session (model loaded or not) and every inbound
sequence, at most one `final: true` transcription event is emitted, and
whenever a `final: true` event occurs in the outbound stream it is followed
by exactly the `done` event — so no transcription event of any kind (in
particular no partial) follows it, and it is the last transcription-type
event before `done`. -/
theorem c4_final_last (ml : Bool) (sr : Nat) (ins : List Inbound) :
    (runSession ml sr ins).events.countP finalTrue ≤ 1 ∧
    finalIsLast (runSession ml sr ins).events = true := by
  cases ml with
  | false =>
    exact ⟨by simp [runSession, List.countP_cons, finalTrue],
      by simp [runSession, finalIsLast, finalTrue]⟩
  | true =>
    refine ⟨?_, ?_⟩
    · simpa [runSession, List.countP_cons, finalTrue]
        using (sessionLoop_final_invariant ins none).1
    · simpa [runSession, finalIsLast, finalTrue]
        using (sessionLoop_final_invariant ins none).2

/-- C5: a failure while processing one audio chunk (malformed payload,
decode failure, rejected buffer) is caught by the chunk-level handler: an
`error` event carrying the exception message is emitted, the engine state
is unchanged, and the loop goes on awaiting messages, so a following chunk
N+1 is still processed (its partial events emitted and its ingestion
counted) and the bad chunk never terminates the session. -/
theorem c5_chunk_error_nonfatal (r res : Option String) (m : String)
    (rest : List Inbound) :
    sessionLoop r (Inbound.audio (ChunkOutcome.fail m) :: rest)
      = (Event.error m :: (sessionLoop r rest).1, (sessionLoop r rest).2) ∧
    (sessionLoop r (Inbound.audio (ChunkOutcome.fail m)
        :: Inbound.audio (ChunkOutcome.ok res) :: rest)).1
      = Event.error m :: (pollEvents res ++ (sessionLoop res rest).1) ∧
    (sessionLoop r (Inbound.audio (ChunkOutcome.fail m)
        :: Inbound.audio (ChunkOutcome.ok res) :: rest)).2.1
      = (sessionLoop res rest).2.1 + 1 :=
  ⟨rfl, rfl, rfl⟩

/-- C6, scenario: three successfully ingested chunks leaving the engine
result texts `""`, `"hello"`, `"hello world"` produce exactly two partial
transcription events, `"hello"` and `"hello world"`, and no event for the
empty first result. -/
theorem c6_three_chunk_scenario :
    (runSession true 16000
        [Inbound.audio (ChunkOutcome.ok (some "")),
         Inbound.audio (ChunkOutcome.ok (some "hello")),
         Inbound.audio (ChunkOutcome.ok (some "hello world"))]).events
      = [Event.ready 16000 readyMessage,
         Event.transcription "hello" false,
         Event.transcription "hello world" false] := by decide

/-- C7, counterexample: the `ready` event does not carry the session's
context window — its JSON object has exactly the keys `type`,
`sample_rate` and `message` (the context size `(256, 256)` passed to
`transcribe_stream` is never sent), as the session with no inbound
messages shows. -/
theorem c7_ready_counterexample :
    (runSession true 16000 []).events = [Event.ready 16000 readyMessage] ∧
    Event.keys (Event.ready 16000 readyMessage)
      = ["type", "sample_rate", "message"] ∧
    "context_window" ∉ Event.keys (Event.ready 16000 readyMessage) ∧
    "contextWindow" ∉ Event.keys (Event.ready 16000 readyMessage) :=
  ⟨rfl, rfl, by decide, by decide⟩

/-- C7, amended: for every session whose open succeeds, the first outbound
event is a `ready` event carrying the engine's required sample rate and a
fixed informational message (its JSON keys are exactly `type`,
`sample_rate`, `message`; the context window is not included), so it
precedes every transcription event. -/
theorem c7_ready_amended (sr : Nat) (ins : List Inbound) :
    (runSession true sr ins).events.head?
      = some (Event.ready sr readyMessage) ∧
    Event.keys (Event.ready sr readyMessage)
      = ["type", "sample_rate", "message"] :=
  ⟨rfl, rfl⟩

/-- C8: when no model is loaded, every session — whatever inbound messages
would have followed — emits exactly one `error` event and terminates at
once: the streaming context is never acquired, no release is attempted,
and no audio is ingested. -/
theorem c8_model_not_loaded (sr : Nat) (ins : List Inbound) :
    runSession false sr ins
      = { events := [Event.error "Model not loaded"], ingests := 0,
          acquired := false, exitCalls := 0, terminated := true } := rfl

/-- C9: a transport-level disconnect observed while awaiting messages exits
the loop at once with no further outbound events and no further ingestion;
teardown still releases the engine resource exactly once; and everything
the session does is independent of any inputs past the disconnect. -/
theorem c9_disconnect (sr : Nat) (r : Option String)
    (pre rest rest2 : List Inbound) :
    sessionLoop r (Inbound.disconnect :: rest) = ([], 0, true) ∧
    (runSession true sr (Inbound.disconnect :: rest)).exitCalls = 1 ∧
    runSession true sr (pre ++ Inbound.disconnect :: rest)
      = runSession true sr (pre ++ Inbound.disconnect :: rest2) := by
  refine ⟨rfl, rfl, ?_⟩
  simp only [runSession]
  rw [sessionLoop_disconnect_suffix pre none rest rest2]

/-- C10, counterexample: an inbound frame that parses as JSON but not as an
object — an array, say — has no `type` field, yet the handler does emit an
outbound event for it: `data.get("type")` raises AttributeError, which the
chunk-level handler reports as an `error` event. -/
theorem c10_other_counterexample :
    (runSession true 16000
        [Inbound.nonObject "list object has no attribute get"]).events
      = [Event.ready 16000 readyMessage,
         Event.error "list object has no attribute get"] := rfl

/-- C10, amended: an inbound message that parses as a JSON *object* whose
`type` is neither `"audio"` nor `"end"` (a missing `type` field included)
matches no branch: no outbound event, no error, no ingestion, and the
session state is left exactly as it was, still awaiting messages; a
message that parses as non-object JSON instead raises inside the loop and
yields an `error` event, the session likewise continuing. -/
theorem c10_other_amended (sr : Nat) (r : Option String) (m : String)
    (rest : List Inbound) :
    sessionLoop r (Inbound.otherObj :: rest) = sessionLoop r rest ∧
    runSession true sr (Inbound.otherObj :: rest)
      = runSession true sr rest ∧
    sessionLoop r (Inbound.nonObject m :: rest)
      = (Event.error m :: (sessionLoop r rest).1, (sessionLoop r rest).2) :=
  ⟨rfl, rfl, rfl⟩

end MlxStt
